import Mathlib

/-!
Verification of the `hifitime` UTC module (`src/utc.rs`).

The source manipulates `f64` values, but every quantity that appears in the
conversions is an integer or a decimal with a fixed short fraction, and all of
them stay far below `2^53`, where `f64` arithmetic on such values is exact up
to the single non-dyadic constant `30.4365` (whose `f64` rounding error, about
`1e-12`, cannot move any of the quotients computed here across an integer
boundary for the magnitudes involved).  The embedding therefore uses exact
rational arithmetic `ℚ` for the `f64` computations, `ℤ` for Rust `i32`, and
`ℕ` for the unsigned types, with the narrowing casts (`as u8`, `as u64`)
modelled explicitly below.
-/

/-- Era tag of an `Instant` (`instant.rs`, not under `src/`).
Modelled from the spec: enumeration with `Past` (strictly before the
1900-01-01 epoch) and `Present` (at or after it). -/
inductive Era where
  | Past : Era
  | Present : Era
deriving DecidableEq

/-- Modelled from the spec: `Instant` (defined in `instant.rs`, not under
`src/`) is an immutable value `{ seconds : u64, nanos : u32, era : Era }`
counting elapsed time from the 1900-01-01 epoch in the direction of `era`. -/
structure Instant where
  seconds : ℕ
  nanos : ℕ
  era : Era
deriving DecidableEq

/-- Modelled from the spec: `Instant::new` packs the three fields. -/
def Instant.new (seconds nanos : ℕ) (era : Era) : Instant :=
  ⟨seconds, nanos, era⟩

/-- `instant.secs()` accessor. -/
def Instant.secs (i : Instant) : ℕ := i.seconds

/-- Modelled from the spec: the error type; `Carry` is the only variant
produced by this module. -/
inductive Errors where
  | Carry : Errors
deriving DecidableEq

/-- Modelled from the spec: `julian::SECONDS_PER_DAY` (not under `src/`) is
the number of seconds in a day, `86400.0`. -/
def SECONDS_PER_DAY : ℚ := 86400

/-- `const JANUARY_YEARS: [i32; 17]` — years whose January 1st follows a
December 31 leap second. -/
def JANUARY_YEARS : List ℤ :=
  [1972, 1973, 1974, 1975, 1976, 1977, 1978, 1979, 1980, 1988, 1990, 1991,
   1996, 1999, 2006, 2009, 2017]

/-- `const JULY_YEARS: [i32; 11]` — years with a June 30 leap second. -/
def JULY_YEARS : List ℤ :=
  [1972, 1981, 1982, 1983, 1985, 1992, 1993, 1994, 1997, 2012, 2015]

/-- `pub const USUAL_DAYS_PER_MONTH: [u8; 12]`. -/
def USUAL_DAYS_PER_MONTH : List ℕ :=
  [31, 28, 31, 30, 31, 30, 31, 31, 30, 31, 30, 31]

/-- `pub const USUAL_DAYS_PER_YEAR: f64 = 365.0`. -/
def USUAL_DAYS_PER_YEAR : ℚ := 365

/-- `fn is_leap_year(year: i32) -> bool`.  Rust `%` on `i32` truncates toward
zero, but a truncated remainder is zero exactly when the Euclidean remainder
is, so `Int.emod` (Lean's `%`) is a faithful translation of the `== 0` and
`!= 0` tests. -/
def is_leap_year (year : ℤ) : Bool :=
  (year % 4 == 0 && year % 100 != 0) || year % 400 == 0

/-- `pub struct Utc` with its seven public fields (`i32`, five `u8`, `u32`). -/
structure Utc where
  year : ℤ
  month : ℕ
  day : ℕ
  hour : ℕ
  minute : ℕ
  second : ℕ
  nanos : ℕ
deriving DecidableEq

/-- The condition under which `Utc::new` promotes `max_seconds` from 59 to 60
(the two nested `if`s at the top of `new`, lines 190–198 of `utc.rs`). -/
def max_seconds_cond (year : ℤ) (month day hour minute : ℕ) : Prop :=
  (month = 12 ∨ month = 6) ∧ day = USUAL_DAYS_PER_MONTH.getD (month - 1) 0 ∧
    hour = 23 ∧ minute = 59 ∧
    ((month = 6 ∧ year ∈ JULY_YEARS) ∨ (month = 12 ∧ year + 1 ∈ JANUARY_YEARS))

instance max_seconds_cond_dec (year : ℤ) (month day hour minute : ℕ) :
    Decidable (max_seconds_cond year month day hour minute) :=
  inferInstanceAs (Decidable ((month = 12 ∨ month = 6) ∧
    day = USUAL_DAYS_PER_MONTH.getD (month - 1) 0 ∧ hour = 23 ∧ minute = 59 ∧
    ((month = 6 ∧ year ∈ JULY_YEARS) ∨ (month = 12 ∧ year + 1 ∈ JANUARY_YEARS))))

deriving instance DecidableEq for Except

/-- `Utc::new` (`utc.rs` lines 180–220).  The check on nanoseconds is the
source's `nanos as f64 > 1e9`: since every `u32` and `1e9` are exactly
representable in `f64`, it is the strict comparison `1000000000 < nanos`.
The array indexings are in bounds whenever they are reached (the first is
guarded by `month == 12 || month == 6`, the second by the bound check that
precedes it), so `getD` is an exact translation. -/
def Utc.new (year : ℤ) (month day hour minute second nanos : ℕ) :
    Except Errors Utc :=
  let max_seconds : ℕ :=
    if max_seconds_cond year month day hour minute then 60 else 59
  if month = 0 ∨ 12 < month ∨ day = 0 ∨ 31 < day ∨ 24 < hour ∨ 59 < minute ∨
      max_seconds < second ∨ 1000000000 < nanos then
    .error .Carry
  else if USUAL_DAYS_PER_MONTH.getD (month - 1) 0 < day ∧
      ¬(month = 2 ∧ is_leap_year year) then
    .error .Carry
  else
    .ok ⟨year, month, day, hour, minute, second, nanos⟩

/-- Truncation toward zero of a rational, as Rust's `f64` → integer casts and
`f64 %` do (exact on the magnitudes arising here). -/
def ratTrunc (q : ℚ) : ℤ :=
  q.num.tdiv q.den

/-- Rust `f64 %` (`fmod`): `n - d * trunc (n / d)`; exact for `f64`. -/
def fmod (n d : ℚ) : ℚ :=
  n - d * ratTrunc (n / d)

/-- Rust `i32 as u8`: keep the low 8 bits. -/
def rust_i32_as_u8 (z : ℤ) : ℕ :=
  (z % 256).toNat

/-- Rust `f64 as u8`: saturating truncation toward zero. -/
def rust_f64_as_u8 (q : ℚ) : ℕ :=
  if q < 0 then 0 else min 255 (ratTrunc q).toNat

/-- Rust `f64 as u64`: saturating truncation toward zero (the values produced
by `as_instant` are nonnegative and far below `2^64`, so only the truncation
and the clamping of negatives matter). -/
def rust_f64_as_u64 (q : ℚ) : ℕ :=
  (ratTrunc q).toNat

/-- `fn quorem(numerator: f64, denominator: f64) -> (i32, f64)` (`utc.rs`
lines 319–330).  The two `panic!` paths are modelled as `none`.  The quotient
is `(numerator / denominator).floor()` and the remainder is Rust `%`.  (The
`as i32` narrowing of the quotient is the identity for every value reached in
this development and is omitted.) -/
def quorem (numerator denominator : ℚ) : Option (ℤ × ℚ) :=
  if numerator < 0 ∨ denominator < 0 then none
  else if denominator = 0 then none
  else some (⌊numerator / denominator⌋, fmod numerator denominator)

/-- The leap-day loop of `as_instant` (`utc.rs` lines 279–283): one day per
leap year in the Rust range `1900..year`, which is empty when
`year ≤ 1900`. -/
def leapDaysBetween (year : ℤ) : ℕ :=
  ((List.range (year - 1900).toNat).filter
    (fun k => is_leap_year (1900 + (k : ℤ)))).length

/-- The month loop of `as_instant` (`utc.rs` lines 285–287): seconds of the
standard months before `month` (indices `0 .. month - 2`). -/
def monthSeconds (month : ℕ) : ℚ :=
  ((List.range (month - 1)).map
    (fun m => SECONDS_PER_DAY * (USUAL_DAYS_PER_MONTH.getD m 0 : ℚ))).sum

/-- Integer image of `monthSeconds`: the same month loop summed in `ℕ`
(used to evaluate `as_instant` on concrete dates without rational
arithmetic). -/
def monthNat (month : ℕ) : ℕ :=
  ((List.range (month - 1)).map
    (fun m => 86400 * USUAL_DAYS_PER_MONTH.getD m 0)).sum

/-- `fn as_instant(self) -> Instant` (`utc.rs` lines 267–300), accumulating
`seconds_wrt_1900` exactly as the source does and truncating to `u64` at the
end. -/
def Utc.as_instant (u : Utc) : Instant :=
  let era : Era := if 1900 ≤ u.year then Era.Present else Era.Past
  let s0 : ℚ :=
    ((u.year - 1900).natAbs : ℚ) * SECONDS_PER_DAY * USUAL_DAYS_PER_YEAR
  let s1 : ℚ := s0 + (leapDaysBetween u.year : ℚ) * SECONDS_PER_DAY
  let s2 : ℚ := s1 + monthSeconds u.month
  let s3 : ℚ :=
    if is_leap_year u.year ∧ ((u.month = 2 ∧ u.day = 29) ∨ 2 < u.month) then
      s2 + SECONDS_PER_DAY
    else s2
  let s4 : ℚ := s3 + ((u.day - 1 : ℕ) : ℚ) * SECONDS_PER_DAY +
    (u.hour : ℚ) * 3600 + (u.minute : ℚ) * 60 + (u.second : ℚ)
  let s5 : ℚ := if u.second = 60 then s4 - 1 else s4
  Instant.new (rust_f64_as_u64 s5) u.nanos era

/-- `fn from_instant(instant: Instant) -> Utc` (`utc.rs` lines 226–263).
Fallible paths — a `quorem` panic, an out-of-bounds month index, or the
`.expect` on the re-validation — are modelled as `none`. -/
def Utc.from_instant (instant : Instant) : Option Utc :=
  match quorem (instant.secs : ℚ) (365 * SECONDS_PER_DAY) with
  | none => none
  | some (year, year_fraction) =>
    match quorem year_fraction (30.4365 * SECONDS_PER_DAY) with
    | none => none
    | some (month0, month_fraction) =>
      let month : ℤ := month0 + 1
      if month - 1 < 0 then none
      else
        match USUAL_DAYS_PER_MONTH.get? (month - 1).toNat with
        | none => none
        | some dtm =>
          let days_this_month : ℕ :=
            if month = 2 ∧ is_leap_year year then dtm + 1 else dtm
          match quorem month_fraction
              (SECONDS_PER_DAY * (days_this_month : ℚ)) with
          | none => none
          | some (day0, day_fraction) =>
            let day : ℤ := day0 + 1
            match quorem day_fraction (60 * 60) with
            | none => none
            | some (hours, hours_fraction) =>
              match quorem hours_fraction 60 with
              | none => none
              | some (mins, secs) =>
                match instant.era with
                | Era.Past =>
                  match Utc.new (1900 - year) (rust_i32_as_u8 month)
                      (rust_i32_as_u8 day) (rust_i32_as_u8 hours)
                      (rust_i32_as_u8 mins) (rust_f64_as_u8 secs)
                      instant.nanos with
                  | .ok u => some u
                  | .error _ => none
                | Era.Present =>
                  match Utc.new (1900 + year) (rust_i32_as_u8 month)
                      (rust_i32_as_u8 day) (rust_i32_as_u8 hours)
                      (rust_i32_as_u8 mins) (rust_f64_as_u8 secs)
                      instant.nanos with
                  | .ok u => some u
                  | .error _ => none

/-! ## Arithmetic helper lemmas -/

theorem ratTrunc_eq_floor (q : ℚ) (hq : 0 ≤ q) : ratTrunc q = ⌊q⌋ := by
  unfold ratTrunc
  rw [Int.tdiv_eq_ediv (Rat.num_nonneg.2 hq) (Int.natCast_nonneg q.den)]
  exact Rat.floor_def.symm

theorem fmod_eq (n d : ℚ) (hn : 0 ≤ n) (hd : 0 < d) :
    fmod n d = n - d * ⌊n / d⌋ := by
  unfold fmod
  rw [ratTrunc_eq_floor _ (div_nonneg hn hd.le)]

theorem quorem_eq (n d : ℚ) (hn : 0 ≤ n) (hd : 0 < d) :
    quorem n d = some (⌊n / d⌋, n - d * ⌊n / d⌋) := by
  unfold quorem
  rw [if_neg (by push_neg; exact ⟨hn, hd.le⟩), if_neg (ne_of_gt hd),
    fmod_eq n d hn hd]

theorem quorem_decomp (a : ℤ) (d r : ℚ) (ha : 0 ≤ a) (hd : 0 < d)
    (hr : 0 ≤ r) (hrd : r < d) : quorem ((a : ℚ) * d + r) d = some (a, r) := by
  have hnum : (0 : ℚ) ≤ (a : ℚ) * d + r :=
    add_nonneg (mul_nonneg (by exact_mod_cast ha) hd.le) hr
  have hq : ((a : ℚ) * d + r) / d = (a : ℚ) + r / d := by
    field_simp
  have hfl : ⌊((a : ℚ) * d + r) / d⌋ = a := by
    rw [hq, Int.floor_int_add, Int.floor_eq_zero_iff.2
      ⟨div_nonneg hr hd.le, (div_lt_one hd).2 hrd⟩, add_zero]
  rw [quorem_eq _ _ hnum hd, hfl]
  congr 1
  ext
  · rfl
  · ring

theorem quorem_small (n d : ℚ) (hn : 0 ≤ n) (hnd : n < d) :
    quorem n d = some (0, n) := by
  have h := quorem_decomp 0 d n le_rfl (lt_of_le_of_lt hn hnd) hn hnd
  simpa using h

theorem ratTrunc_natCast (k : ℕ) : ratTrunc (k : ℚ) = k := by
  rw [ratTrunc_eq_floor _ (by positivity), Int.floor_natCast]

theorem rust_f64_as_u8_natCast (k : ℕ) (hk : k ≤ 255) :
    rust_f64_as_u8 (k : ℚ) = k := by
  unfold rust_f64_as_u8
  rw [if_neg (not_lt.2 (by positivity)), ratTrunc_natCast]
  omega

theorem rust_i32_as_u8_small (k : ℕ) (hk : k < 256) :
    rust_i32_as_u8 (k : ℤ) = k := by
  unfold rust_i32_as_u8
  omega
theorem rust_f64_as_u64_natCast (k : ℕ) : rust_f64_as_u64 (k : ℚ) = k := by
  unfold rust_f64_as_u64
  rw [ratTrunc_natCast]
  exact Int.toNat_natCast k

theorem rust_f64_as_u64_eq (q : ℚ) (k : ℕ) (h : q = (k : ℚ)) :
    rust_f64_as_u64 q = k := by
  rw [h, rust_f64_as_u64_natCast]

theorem monthSeconds_eq_monthNat (mo : ℕ) :
    monthSeconds mo = ((monthNat mo : ℕ) : ℚ) := by
  unfold monthSeconds monthNat
  rw [Nat.cast_list_sum, List.map_map]
  congr 1
  apply List.map_congr_left
  intro m _
  simp only [Function.comp_apply, SECONDS_PER_DAY]
  push_cast
  ring

theorem as_instant_eval (u : Utc) (T : ℕ) (e : Era)
    (he : (if 1900 ≤ u.year then Era.Present else Era.Past) = e)
    (hT : (u.year - 1900).natAbs * (86400 * 365) +
      leapDaysBetween u.year * 86400 + monthNat u.month +
      (if is_leap_year u.year = true ∧ (u.month = 2 ∧ u.day = 29 ∨ 2 < u.month)
        then 86400 else 0) +
      (u.day - 1) * 86400 + u.hour * 3600 + u.minute * 60 + u.second -
      (if u.second = 60 then 1 else 0) = T) :
    u.as_instant = Instant.new T u.nanos e := by
  subst he
  subst hT
  simp only [Utc.as_instant, Instant.new, SECONDS_PER_DAY, USUAL_DAYS_PER_YEAR,
    monthSeconds_eq_monthNat]
  congr 1
  by_cases hadj : is_leap_year u.year = true ∧ (u.month = 2 ∧ u.day = 29 ∨ 2 < u.month)
  · rw [if_pos hadj, if_pos hadj]
    by_cases h60 : u.second = 60
    · have h1 : 1 ≤ (u.year - 1900).natAbs * (86400 * 365) +
          leapDaysBetween u.year * 86400 + monthNat u.month + 86400 +
          (u.day - 1) * 86400 + u.hour * 3600 + u.minute * 60 + u.second := by omega
      rw [if_pos h60, if_pos h60]
      apply rust_f64_as_u64_eq
      rw [Nat.cast_sub h1]
      push_cast
      ring
    · rw [if_neg h60, if_neg h60, Nat.sub_zero]
      apply rust_f64_as_u64_eq
      push_cast
      ring
  · rw [if_neg hadj, if_neg hadj, Nat.add_zero]
    by_cases h60 : u.second = 60
    · have h1 : 1 ≤ (u.year - 1900).natAbs * (86400 * 365) +
          leapDaysBetween u.year * 86400 + monthNat u.month +
          (u.day - 1) * 86400 + u.hour * 3600 + u.minute * 60 + u.second := by omega
      rw [if_pos h60, if_pos h60]
      apply rust_f64_as_u64_eq
      rw [Nat.cast_sub h1]
      push_cast
      ring
    · rw [if_neg h60, if_neg h60, Nat.sub_zero]
      apply rust_f64_as_u64_eq
      push_cast
      ring


/-- Unfolds `from_instant` on a `Present`-era instant, given the value of
each successive `quorem` decomposition step and of the final re-validation. -/
theorem from_instant_present_eval (t n : ℕ) (y mo0 d0 hrs mns : ℤ)
    (yf mf df hf sc : ℚ) (dtm dtm2 : ℕ) (res : Option Utc)
    (h1 : quorem (t : ℚ) (365 * SECONDS_PER_DAY) = some (y, yf))
    (h2 : quorem yf (30.4365 * SECONDS_PER_DAY) = some (mo0, mf))
    (hmo : 0 ≤ mo0)
    (h3 : USUAL_DAYS_PER_MONTH.get? (mo0 + 1 - 1).toNat = some dtm)
    (h4 : (if mo0 + 1 = 2 ∧ is_leap_year y then dtm + 1 else dtm) = dtm2)
    (h5 : quorem mf (SECONDS_PER_DAY * (dtm2 : ℚ)) = some (d0, df))
    (h6 : quorem df (60 * 60) = some (hrs, hf))
    (h7 : quorem hf 60 = some (mns, sc))
    (h8 : (match Utc.new (1900 + y) (rust_i32_as_u8 (mo0 + 1))
        (rust_i32_as_u8 (d0 + 1)) (rust_i32_as_u8 hrs) (rust_i32_as_u8 mns)
        (rust_f64_as_u8 sc) n with
        | .ok u => some u
        | .error _ => none) = res) :
    Utc.from_instant (Instant.new t n Era.Present) = res := by
  rw [← h8]
  simp only [Utc.from_instant, Instant.new, Instant.secs, h1, h2]
  rw [if_neg (by omega)]
  simp only [h3, h4, h5, h6, h7]

/-- `Utc::new` accepts any time of day on 1900-01-01 (note that hour 24 is
accepted, since the bound check is the strict `hour > 24`). -/
theorem new_ok_day_one (h mi s n : ℕ) (hh : h ≤ 24) (hm : mi ≤ 59) (hs : s ≤ 59)
    (hn : n ≤ 1000000000) :
    Utc.new 1900 1 1 h mi s n = .ok ⟨1900, 1, 1, h, mi, s, n⟩ := by
  have hms : ¬ max_seconds_cond 1900 1 1 h mi := by
    rintro ⟨hc, -⟩
    rcases hc with hc | hc <;> omega
  simp only [Utc.new]
  rw [if_neg hms]
  rw [if_neg (by push_neg; omega)]
  rw [if_neg (by decide)]

/-- `from_instant` on any instant within the first day after the epoch
reconstructs the corresponding time on 1900-01-01. -/
theorem from_instant_small (h mi s n : ℕ) (hh : h ≤ 24) (hm : mi ≤ 59) (hs : s ≤ 59)
    (hn : n ≤ 1000000000) :
    Utc.from_instant (Instant.new (3600 * h + 60 * mi + s) n Era.Present) =
      some ⟨1900, 1, 1, h, mi, s, n⟩ := by
  have htle : ((3600 * h + 60 * mi + s : ℕ) : ℚ) ≤ 89999 := by
    exact_mod_cast Nat.cast_le.2 (show 3600 * h + 60 * mi + s ≤ 89999 by omega)
  refine from_instant_present_eval (3600 * h + 60 * mi + s) n 0 0 0 ((h : ℕ) : ℤ)
    ((mi : ℕ) : ℤ) ((3600 * h + 60 * mi + s : ℕ) : ℚ)
    ((3600 * h + 60 * mi + s : ℕ) : ℚ) ((3600 * h + 60 * mi + s : ℕ) : ℚ)
    ((60 * mi + s : ℕ) : ℚ) ((s : ℕ) : ℚ) 31 31 _
    ?_ ?_ le_rfl (by decide) (by decide) ?_ ?_ ?_ ?_
  · exact quorem_small _ _ (by positivity)
      (lt_of_le_of_lt htle (by rw [SECONDS_PER_DAY]; norm_num))
  · exact quorem_small _ _ (by positivity)
      (lt_of_le_of_lt htle (by rw [SECONDS_PER_DAY]; norm_num))
  · exact quorem_small _ _ (by positivity)
      (lt_of_le_of_lt htle (by rw [SECONDS_PER_DAY]; push_cast; norm_num))
  · calc quorem ((3600 * h + 60 * mi + s : ℕ) : ℚ) (60 * 60)
        = quorem ((((h : ℕ) : ℤ) : ℚ) * (60 * 60) + ((60 * mi + s : ℕ) : ℚ)) (60 * 60) := by
          congr 1
          push_cast
          ring
      _ = some (((h : ℕ) : ℤ), ((60 * mi + s : ℕ) : ℚ)) :=
          quorem_decomp _ _ _ (by positivity) (by norm_num) (by positivity)
            (by exact_mod_cast Nat.cast_lt.2 (show 60 * mi + s < 60 * 60 by omega))
  · calc quorem ((60 * mi + s : ℕ) : ℚ) 60
        = quorem ((((mi : ℕ) : ℤ) : ℚ) * 60 + ((s : ℕ) : ℚ)) 60 := by
          congr 1
          push_cast
          ring
      _ = some (((mi : ℕ) : ℤ), ((s : ℕ) : ℚ)) :=
          quorem_decomp _ _ _ (by positivity) (by norm_num) (by positivity)
            (by exact_mod_cast Nat.cast_lt.2 (show s < 60 by omega))
  · rw [show (1900 : ℤ) + 0 = 1900 from rfl,
      show rust_i32_as_u8 (0 + 1) = 1 from rfl,
      rust_i32_as_u8_small h (by omega), rust_i32_as_u8_small mi (by omega),
      rust_f64_as_u8_natCast s (by omega),
      new_ok_day_one h mi s n hh hm hs hn]

/-- `from_instant` at 2592000 s (30 days) after the epoch: the day step
divides by the whole month length, so the hour step receives 30 days worth of
seconds and computes `hours = 720`; the `u8` cast wraps it to 208, the
re-validation rejects it, and the `.expect` panics (modelled as `none`). -/
theorem from_instant_2592000 :
    Utc.from_instant (Instant.new 2592000 0 Era.Present) = none := by
  refine from_instant_present_eval 2592000 0 0 0 0 720 0
    ((2592000 : ℕ) : ℚ) ((2592000 : ℕ) : ℚ) ((2592000 : ℕ) : ℚ) (0 : ℚ) (0 : ℚ)
    31 31 _
    ?_ ?_ le_rfl (by decide) (by decide) ?_ ?_ ?_ ?_
  · exact quorem_small _ _ (by positivity) (by rw [SECONDS_PER_DAY]; norm_num)
  · exact quorem_small _ _ (by positivity) (by rw [SECONDS_PER_DAY]; norm_num)
  · exact quorem_small _ _ (by positivity) (by rw [SECONDS_PER_DAY]; push_cast; norm_num)
  · calc quorem ((2592000 : ℕ) : ℚ) (60 * 60)
        = quorem (((720 : ℤ) : ℚ) * (60 * 60) + (0 : ℚ)) (60 * 60) := by
          congr 1
          push_cast
          ring
      _ = some ((720 : ℤ), (0 : ℚ)) :=
          quorem_decomp _ _ _ (by norm_num) (by norm_num) le_rfl (by norm_num)
  · exact quorem_small _ _ le_rfl (by norm_num)
  · rw [show (1900 : ℤ) + 0 = 1900 from rfl,
      show rust_i32_as_u8 (0 + 1) = 1 from rfl,
      show rust_i32_as_u8 720 = 208 from rfl,
      show rust_i32_as_u8 0 = 0 from rfl,
      show rust_f64_as_u8 0 = 0 from rfl,
      show Utc.new 1900 1 1 208 0 0 0 = .error .Carry from by decide]

/-! ## General lemmas about the validator -/

/-- If `Utc::new` accepts `second = 60`, the date is the last day of June at
23:59 with the year in `JULY_YEARS`, or the last day of December at 23:59
with the following year in `JANUARY_YEARS`. -/
theorem second60_gate (y : ℤ) (m d h mi n : ℕ) (u : Utc)
    (hok : Utc.new y m d h mi 60 n = .ok u) :
    (m = 6 ∧ d = 30 ∧ h = 23 ∧ mi = 59 ∧ y ∈ JULY_YEARS) ∨
    (m = 12 ∧ d = 31 ∧ h = 23 ∧ mi = 59 ∧ y + 1 ∈ JANUARY_YEARS) := by
  by_cases hc : max_seconds_cond y m d h mi
  · obtain ⟨-, hd, hh, hmi, hdisj⟩ := hc
    rcases hdisj with ⟨h6, hj⟩ | ⟨h12, hj⟩
    · subst h6
      exact Or.inl ⟨rfl, hd.trans (by decide), hh, hmi, hj⟩
    · subst h12
      exact Or.inr ⟨rfl, hd.trans (by decide), hh, hmi, hj⟩
  · exfalso
    simp only [Utc.new] at hok
    rw [if_neg hc] at hok
    rw [if_pos (by omega)] at hok
    exact Except.noConfusion hok

/-- A day beyond the standard length of the month is rejected with `Carry`
whenever the month is not a February of a leap year (the code checks only
`month != 2 || !is_leap_year`, not `day == 29`). -/
theorem day_overflow_carry (y : ℤ) (m d h mi s n : ℕ) (hm1 : 1 ≤ m) (hm2 : m ≤ 12)
    (hd : USUAL_DAYS_PER_MONTH.getD (m - 1) 0 < d)
    (hfeb : ¬(m = 2 ∧ is_leap_year y)) :
    Utc.new y m d h mi s n = .error .Carry := by
  simp only [Utc.new]
  split_ifs <;> first | rfl | tauto

/-- Hours 25 and above are rejected (the bound check is `hour > 24`). -/
theorem hour_gt_24_carry (y : ℤ) (m d h mi s n : ℕ) (hh : 24 < h) :
    Utc.new y m d h mi s n = .error .Carry := by
  simp only [Utc.new]
  rw [if_pos (by omega)]

/-- Any value accepted by `Utc::new` has `hour ≤ 24` (24 itself passes the
strict `hour > 24` check). -/
theorem ok_hour_le_24 (y : ℤ) (m d h mi s n : ℕ) (u : Utc)
    (hok : Utc.new y m d h mi s n = .ok u) : u.hour ≤ 24 := by
  simp only [Utc.new] at hok
  split_ifs at hok <;> try exact Except.noConfusion hok
  all_goals
    obtain rfl := Except.ok.inj hok
    show h ≤ 24
    omega

/-! ## The claims -/

/-- Claim C1, amended: the round trip `from_instant (as_instant u) = u` holds
for the `Utc` values on the epoch day (year 1900, month 1, day 1) accepted by
`new`; their `second` field is at most 59, so none is a leap instant.  (It is
not the identity on all accepted values: it fails at 1900-01-02, see the
counterexample.) -/
theorem c1_amended (h mi s n : ℕ) (hh : h ≤ 24) (hm : mi ≤ 59) (hs : s ≤ 59)
    (hn : n ≤ 1000000000) :
    Utc.new 1900 1 1 h mi s n = .ok ⟨1900, 1, 1, h, mi, s, n⟩ ∧
    Utc.from_instant (Utc.as_instant ⟨1900, 1, 1, h, mi, s, n⟩) =
      some ⟨1900, 1, 1, h, mi, s, n⟩ := by
  refine ⟨new_ok_day_one h mi s n hh hm hs hn, ?_⟩
  have h1 : Utc.as_instant ⟨1900, 1, 1, h, mi, s, n⟩ =
      Instant.new (3600 * h + 60 * mi + s) n Era.Present := by
    refine as_instant_eval _ _ _ rfl ?_
    show ((1900 : ℤ) - 1900).natAbs * (86400 * 365) + leapDaysBetween 1900 * 86400 +
      monthNat 1 +
      (if is_leap_year 1900 = true ∧ ((1 : ℕ) = 2 ∧ (1 : ℕ) = 29 ∨ 2 < (1 : ℕ))
        then 86400 else 0) +
      (1 - 1) * 86400 + h * 3600 + mi * 60 + s - (if s = 60 then 1 else 0) =
      3600 * h + 60 * mi + s
    rw [if_neg (by decide), if_neg (show ¬ s = 60 by omega)]
    simp only [show leapDaysBetween 1900 = 0 from rfl, show monthNat 1 = 0 from rfl,
      show ((1900 : ℤ) - 1900).natAbs = 0 from rfl]
    omega
  rw [h1, from_instant_small h mi s n hh hm hs hn]

/-- Claim C1, counterexample: `Utc{1900,1,2,0,0,0,0}` is accepted by `new`
and is not a leap instant, yet `from_instant (as_instant u)` returns
`Utc{1900,1,1,24,0,0,0}`, not `u`: the day step of the decomposition divides
by the whole month length, so one full day collapses into `hour = 24`. -/
theorem c1_counterexample :
    Utc.new 1900 1 2 0 0 0 0 = .ok ⟨1900, 1, 2, 0, 0, 0, 0⟩ ∧
    (⟨1900, 1, 2, 0, 0, 0, 0⟩ : Utc).second ≠ 60 ∧
    Utc.from_instant (Utc.as_instant ⟨1900, 1, 2, 0, 0, 0, 0⟩) ≠
      some ⟨1900, 1, 2, 0, 0, 0, 0⟩ := by
  refine ⟨by decide, by decide, ?_⟩
  have h1 : Utc.as_instant ⟨1900, 1, 2, 0, 0, 0, 0⟩ =
      Instant.new 86400 0 Era.Present := as_instant_eval _ _ _ (by decide) (by decide)
  have h2 : Utc.from_instant (Instant.new 86400 0 Era.Present) =
      some ⟨1900, 1, 1, 24, 0, 0, 0⟩ := by
    have h3 := from_instant_small 24 0 0 0 (by omega) (by omega) (by omega) (by omega)
    norm_num at h3
    exact h3
  rw [h1, h2]
  decide

/-- Claim C1, witness: the amended round trip at 1900-01-01T03:04:05.000000006. -/
theorem c1_witness :
    (3 : ℕ) ≤ 24 ∧ (4 : ℕ) ≤ 59 ∧ (5 : ℕ) ≤ 59 ∧ (6 : ℕ) ≤ 1000000000 ∧
    (Utc.new 1900 1 1 3 4 5 6 = .ok ⟨1900, 1, 1, 3, 4, 5, 6⟩ ∧
      Utc.from_instant (Utc.as_instant ⟨1900, 1, 1, 3, 4, 5, 6⟩) =
        some ⟨1900, 1, 1, 3, 4, 5, 6⟩) :=
  ⟨by decide, by decide, by decide, by decide,
   c1_amended 3 4 5 6 (by decide) (by decide) (by decide) (by decide)⟩

/-- Claim C2, counterexample: the instant of the 1971-12-31 leap second 60 is
NOT one second after the instant of second 59 — the code gives both the same
second count 2272060799 (as its own doc-test asserts). -/
theorem c2_counterexample :
    (Utc.as_instant ⟨1971, 12, 31, 23, 59, 60, 0⟩).seconds ≠
      (Utc.as_instant ⟨1971, 12, 31, 23, 59, 59, 0⟩).seconds + 1 := by
  rw [as_instant_eval ⟨1971, 12, 31, 23, 59, 60, 0⟩ 2272060799 Era.Present
      (by decide) (by decide),
    as_instant_eval ⟨1971, 12, 31, 23, 59, 59, 0⟩ 2272060799 Era.Present
      (by decide) (by decide)]
  decide

/-- Claim C2, amended: `as_instant` maps second 59 and second 60 of the leap
minute to the SAME `Instant` (the `second == 60` branch subtracts one
second), and the following midnight 1972-01-01T00:00:00 maps one second
later. -/
theorem c2_amended :
    Utc.as_instant ⟨1971, 12, 31, 23, 59, 60, 0⟩ = Instant.new 2272060799 0 Era.Present ∧
    Utc.as_instant ⟨1971, 12, 31, 23, 59, 59, 0⟩ = Instant.new 2272060799 0 Era.Present ∧
    Utc.as_instant ⟨1972, 1, 1, 0, 0, 0, 0⟩ = Instant.new 2272060800 0 Era.Present :=
  ⟨as_instant_eval _ _ _ (by decide) (by decide),
   as_instant_eval _ _ _ (by decide) (by decide),
   as_instant_eval _ _ _ (by decide) (by decide)⟩

/-- Claim C3: `from_instant` is NOT total on valid instants: at
2592000 s (nanos 0 < 1e9) the reconstruction produces hour 720 (208 after
the `u8` cast), the re-validation fails, and the `.expect` panic path —
modelled as `none` — is reached. -/
theorem c3_from_instant_panics :
    (Instant.new 2592000 0 Era.Present).nanos < 1000000000 ∧
    Utc.from_instant (Instant.new 2592000 0 Era.Present) = none :=
  ⟨by decide, from_instant_2592000⟩

/-- Claim C4: `Utc::new` accepts `second = 60` only on the last day of June
or December at 23:59 with the year in the matching leap-second list (the
year itself in `JULY_YEARS` for June, the year plus one in `JANUARY_YEARS`
for December); `new 1971 12 31 23 59 60 0` succeeds, and
`new 1972 12 31 23 59 60 0` also succeeds because 1973 is in
`JANUARY_YEARS`. -/
theorem c4_leap_second_gating :
    (∀ (y : ℤ) (m d h mi n : ℕ) (u : Utc), Utc.new y m d h mi 60 n = .ok u →
      (m = 6 ∧ d = 30 ∧ h = 23 ∧ mi = 59 ∧ y ∈ JULY_YEARS) ∨
      (m = 12 ∧ d = 31 ∧ h = 23 ∧ mi = 59 ∧ y + 1 ∈ JANUARY_YEARS)) ∧
    Utc.new 1971 12 31 23 59 60 0 = .ok ⟨1971, 12, 31, 23, 59, 60, 0⟩ ∧
    (1973 : ℤ) ∈ JANUARY_YEARS ∧
    Utc.new 1972 12 31 23 59 60 0 = .ok ⟨1972, 12, 31, 23, 59, 60, 0⟩ :=
  ⟨second60_gate, by decide, by decide, by decide⟩

/-- Claim C4, witness: the gate conditions instantiated at the accepted
1971-12-31T23:59:60 input. -/
theorem c4_witness :
    ((12 : ℕ) = 6 ∧ (31 : ℕ) = 30 ∧ (23 : ℕ) = 23 ∧ (59 : ℕ) = 59 ∧
      (1971 : ℤ) ∈ JULY_YEARS) ∨
    ((12 : ℕ) = 12 ∧ (31 : ℕ) = 31 ∧ (23 : ℕ) = 23 ∧ (59 : ℕ) = 59 ∧
      (1971 : ℤ) + 1 ∈ JANUARY_YEARS) :=
  c4_leap_second_gating.1 1971 12 31 23 59 0 ⟨1971, 12, 31, 23, 59, 60, 0⟩ (by decide)

/-- Claim C5, amended: a day beyond the standard month length is rejected
with `Carry` unless `month = 2` and the year is a leap year (the code does
not require `day = 29`, so February 30 of a leap year is accepted — see the
counterexample); the three concrete cases behave as the claim states. -/
theorem c5_amended :
    (∀ (y : ℤ) (m d h mi s n : ℕ), 1 ≤ m → m ≤ 12 →
      USUAL_DAYS_PER_MONTH.getD (m - 1) 0 < d → ¬(m = 2 ∧ is_leap_year y) →
      Utc.new y m d h mi s n = .error .Carry) ∧
    Utc.new 2021 2 29 0 0 0 0 = .error .Carry ∧
    Utc.new 2021 13 1 0 0 0 0 = .error .Carry ∧
    Utc.new 2020 2 29 0 0 0 0 = .ok ⟨2020, 2, 29, 0, 0, 0, 0⟩ :=
  ⟨day_overflow_carry, by decide, by decide, by decide⟩

/-- Claim C5, counterexample: February 30, 2020 exceeds the standard month
length and is not February 29, yet `Utc::new` accepts it. -/
theorem c5_counterexample :
    USUAL_DAYS_PER_MONTH.getD (2 - 1) 0 < 30 ∧ (30 : ℕ) ≠ 29 ∧
    Utc.new 2020 2 30 0 0 0 0 = .ok ⟨2020, 2, 30, 0, 0, 0, 0⟩ := by decide

/-- Claim C5, witness: April 31 is rejected with `Carry`. -/
theorem c5_witness : Utc.new 2019 4 31 5 6 7 8 = .error .Carry :=
  c5_amended.1 2019 4 31 5 6 7 8 (by decide) (by decide) (by decide) (by decide)

/-- Claim C6, amended: `Utc::new` returns `Carry` whenever
`nanos > 1_000_000_000`, regardless of the other fields — strictly greater,
because the source compares `nanos as f64 > 1e9`, so exactly 1e9 nanoseconds
is accepted (see the counterexample). -/
theorem c6_amended (y : ℤ) (m d h mi s n : ℕ) (hn : 1000000000 < n) :
    Utc.new y m d h mi s n = .error .Carry := by
  simp only [Utc.new]
  rw [if_pos (by omega)]

/-- Claim C6, counterexample: `nanos = 1_000_000_000` is `≥ 1e9` yet the
input is accepted, because the code's comparison is strict. -/
theorem c6_counterexample :
    (1000000000 : ℕ) ≤ 1000000000 ∧
    Utc.new 2000 1 1 0 0 0 1000000000 = .ok ⟨2000, 1, 1, 0, 0, 0, 1000000000⟩ := by
  decide

/-- Claim C6, witness: one nanosecond above 1e9 is rejected. -/
theorem c6_witness :
    (1000000000 : ℕ) < 1000000001 ∧
    Utc.new 2000 1 1 0 0 0 1000000001 = .error .Carry :=
  ⟨by decide, c6_amended 2000 1 1 0 0 0 1000000001 (by decide)⟩

/-- Claim C7, amended: every value returned by `Utc::new` has `hour ≤ 24`,
and only `hour ≥ 25` is rejected — `hour = 24` is accepted, because the
bound check is the strict `hour > 24` (see the counterexample). -/
theorem c7_amended :
    (∀ (y : ℤ) (m d h mi s n : ℕ) (u : Utc),
      Utc.new y m d h mi s n = .ok u → u.hour ≤ 24) ∧
    (∀ (y : ℤ) (m d h mi s n : ℕ), 24 < h →
      Utc.new y m d h mi s n = .error .Carry) :=
  ⟨ok_hour_le_24, hour_gt_24_carry⟩

/-- Claim C7, counterexample: `Utc::new` accepts `hour = 24`, so the hour
field of a validated value is not confined to 0–23. -/
theorem c7_counterexample :
    Utc.new 2000 1 1 24 0 0 0 = .ok ⟨2000, 1, 1, 24, 0, 0, 0⟩ ∧
    (⟨2000, 1, 1, 24, 0, 0, 0⟩ : Utc).hour = 24 := by decide

/-- Claim C7, witness: the bound at hour 24 and the rejection at hour 25. -/
theorem c7_witness :
    (⟨2000, 1, 1, 24, 0, 0, 0⟩ : Utc).hour ≤ 24 ∧
    Utc.new 2000 1 1 25 0 0 0 = .error .Carry :=
  ⟨c7_amended.1 2000 1 1 24 0 0 0 ⟨2000, 1, 1, 24, 0, 0, 0⟩ (by decide),
   c7_amended.2 2000 1 1 25 0 0 0 (by decide)⟩

/-- Claim C8: `Utc::new 1900 1 1 0 0 0 0` succeeds and its `as_instant` is
the zero instant `Instant{seconds: 0, nanos: 0, era: Present}`. -/
theorem c8_epoch :
    Utc.new 1900 1 1 0 0 0 0 = .ok ⟨1900, 1, 1, 0, 0, 0, 0⟩ ∧
    Utc.as_instant ⟨1900, 1, 1, 0, 0, 0, 0⟩ = Instant.new 0 0 Era.Present :=
  ⟨by decide, as_instant_eval _ _ _ (by decide) (by decide)⟩

/-- Claim C9: `quorem` hits a panic exactly when the numerator is negative,
the denominator is negative, or the denominator is zero; on a nonnegative
numerator and positive denominator it returns the floored quotient with the
remainder, and `quorem 3540 3600 = (0, 3540)`, `quorem 3540 60 = (59, 0)`. -/
theorem c9_quorem_contract :
    (∀ n d : ℚ, quorem n d = none ↔ n < 0 ∨ d < 0 ∨ d = 0) ∧
    (∀ n d : ℚ, 0 ≤ n → 0 < d → quorem n d = some (⌊n / d⌋, n - d * ⌊n / d⌋)) ∧
    quorem 3540 3600 = some (0, 3540) ∧
    quorem 3540 60 = some (59, 0) := by
  refine ⟨?_, quorem_eq, ?_, ?_⟩
  · intro n d
    unfold quorem
    split_ifs with h1 h2
    · exact iff_of_true rfl (by tauto)
    · exact iff_of_true rfl (by tauto)
    · exact iff_of_false (by simp) (by tauto)
  · exact quorem_small (3540 : ℚ) 3600 (by norm_num) (by norm_num)
  · calc quorem (3540 : ℚ) 60 = quorem (((59 : ℤ) : ℚ) * 60 + 0) 60 := by norm_num
      _ = some ((59 : ℤ), (0 : ℚ)) :=
        quorem_decomp _ _ _ (by norm_num) (by norm_num) le_rfl (by norm_num)

/-- Claim C9, witness: the floored-quotient contract at (3540, 3600). -/
theorem c9_witness :
    (0 : ℚ) ≤ 3540 ∧ (0 : ℚ) < 3600 ∧
    quorem 3540 3600 =
      some (⌊(3540 : ℚ) / 3600⌋, 3540 - 3600 * (⌊(3540 : ℚ) / 3600⌋ : ℚ)) :=
  ⟨by norm_num, by norm_num, c9_quorem_contract.2.1 3540 3600 (by norm_num) (by norm_num)⟩

/-- Claim C10: for a year before 1900 the leap-day loop of `as_instant` is
empty (it ranges over `1900..year`), so no leap days are added for the years
between that year and 1900; in particular 1896-01-01 maps to a `Past`
instant of exactly `4 * 365 * 86400` seconds even though the real span
contains the leap day of February 29, 1896. -/
theorem c10_past_no_leap_days :
    (∀ y : ℤ, y < 1900 → leapDaysBetween y = 0) ∧
    Utc.as_instant ⟨1896, 1, 1, 0, 0, 0, 0⟩ =
      Instant.new (4 * 365 * 86400) 0 Era.Past := by
  constructor
  · intro y hy
    unfold leapDaysBetween
    rw [show (y - 1900).toNat = 0 from by omega]
    rfl
  · exact as_instant_eval _ _ _ (by decide) (by decide)

/-- Claim C10, witness: the empty leap-day loop at year 1896. -/
theorem c10_witness : (1896 : ℤ) < 1900 ∧ leapDaysBetween 1896 = 0 :=
  ⟨by decide, c10_past_no_leap_days.1 1896 (by decide)⟩
